import Mathlib

/-!
Shallow embedding of the comparison / trust-scoring engine of the
KenyaRe hackathon frontend: the mock comparison-data generator
`generateMockComparisonData` and the report-enhancement helper
`enhanceReportWithComparison`, together with the data model from
`types.ts`.  Monetary amounts, scores and percentages are embedded as
rationals; booleans as `Bool`; date lists as lists of opaque strings.
-/

/-- `DateComparison.matches` from types.ts: the three pairwise match counts. -/
structure DateMatches where
  statement_gt_matches : Nat
  treaty_gt_matches : Nat
  statement_treaty_matches : Nat
deriving DecidableEq

/-- `DateComparison` from types.ts. -/
structure DateComparison where
  statement_dates : List String
  treaty_slip_dates : List String
  ground_truth_dates : List String
  «matches» : DateMatches
  discrepancies : List String
  match_percentage : ℚ
deriving DecidableEq

/-- `FinancialComparison.cash_loss_limit` from types.ts. -/
structure CashLossLimit where
  treaty_slip_amount : ℚ
  statement_surplus_amount : ℚ
  within_limits : Bool
  variance_percentage : ℚ
  risk_flag : Bool
deriving DecidableEq

/-- `FinancialComparison.commissions` from types.ts; the source field
`match` is a Lean keyword, hence the guillemets. -/
structure Commissions where
  treaty_slip_commission : ℚ
  statement_commission : ℚ
  «match» : Bool
  variance_amount : ℚ
  variance_percentage : ℚ
deriving DecidableEq

/-- `FinancialComparison.claim_amounts` from types.ts. -/
structure ClaimAmounts where
  total_claims_statement : ℚ
  total_claims_ground_truth : ℚ
  variance : ℚ
  variance_percentage : ℚ
  suspicious_patterns : List String
deriving DecidableEq

/-- `FinancialComparison` from types.ts. -/
structure FinancialComparison where
  cash_loss_limit : CashLossLimit
  commissions : Commissions
  claim_amounts : ClaimAmounts
deriving DecidableEq

/-- `GroundTruthComparison.total_claims_comparison` from types.ts. -/
structure TotalClaimsComparison where
  statement_claims : Nat
  ground_truth_claims : Nat
  «match» : Bool
  variance : ℤ
  variance_percentage : ℚ
  missing_claims : List String
  extra_claims : List String
deriving DecidableEq

/-- `GroundTruthComparison.data_integrity` from types.ts; the
`'HIGH' | 'MEDIUM' | 'LOW'` union is embedded as a plain string, as the
source assigns string literals. -/
structure DataIntegrity where
  completeness_score : ℚ
  accuracy_score : ℚ
  consistency_score : ℚ
  reliability_rating : String
deriving DecidableEq

/-- `GroundTruthComparison` from types.ts. -/
structure GroundTruthComparison where
  total_claims_comparison : TotalClaimsComparison
  data_integrity : DataIntegrity
deriving DecidableEq

/-- `ValidationMetrics.reliability_indicators` from types.ts. -/
structure ReliabilityIndicators where
  data_consistency : ℚ
  cross_reference_accuracy : ℚ
  financial_alignment : ℚ
  temporal_consistency : ℚ
deriving DecidableEq

/-- `ValidationMetrics.verification_status` from types.ts. -/
structure VerificationStatus where
  dates_verified : Bool
  amounts_verified : Bool
  commissions_verified : Bool
  claims_count_verified : Bool
deriving DecidableEq

/-- `ValidationMetrics` from types.ts. -/
structure ValidationMetrics where
  trust_score : ℚ
  reliability_indicators : ReliabilityIndicators
  verification_status : VerificationStatus
deriving DecidableEq

/-- The per-document `ground_truth_analysis` snapshot inside
`statement_compliance` / `treaty_slip_compliance` from types.ts. -/
structure GroundTruthAnalysisDoc where
  matches_found : Nat
  avg_similarity : ℚ
  max_similarity : ℚ
deriving DecidableEq

/-- The per-document compliance sub-record of `ComplianceAnalysis`
(`statement_compliance` and `treaty_slip_compliance`) from types.ts. -/
structure DocumentCompliance where
  compliance_score : ℚ
  risk_level : String
  risk_indicators : List String
  ground_truth_analysis : GroundTruthAnalysisDoc
deriving DecidableEq

/-- The aggregate `ground_truth_analysis` snapshot of `ComplianceAnalysis`
from types.ts. -/
structure GroundTruthAnalysisTop where
  matches_count : Nat
  avg_similarity : ℚ
  max_similarity : ℚ
deriving DecidableEq

/-- `ComplianceAnalysis` from types.ts; the fields marked optional there
(`treaty_slip_compliance?`, `date_comparison?`, `financial_comparison?`,
`ground_truth_comparison?`, `validation_metrics?`) are `Option`s. -/
structure ComplianceAnalysis where
  overall_compliance_score : ℚ
  overall_risk_level : String
  pairing_confidence : ℚ
  statement_compliance : DocumentCompliance
  treaty_slip_compliance : Option DocumentCompliance
  ground_truth_analysis : GroundTruthAnalysisTop
  date_comparison : Option DateComparison
  financial_comparison : Option FinancialComparison
  ground_truth_comparison : Option GroundTruthComparison
  validation_metrics : Option ValidationMetrics
deriving DecidableEq

/-- The hardcoded `statementDates` list of the mock generator. -/
def mockStatementDates : List String :=
  ["2024-09-15", "2024-09-16", "2024-09-17"]

/-- The hardcoded `treatyDates` list of the mock generator; the third
entry is a discrepancy for the high-risk classification. -/
def mockTreatyDates (classification : String) : List String :=
  ["2024-09-15", "2024-09-16",
   if classification == "POTENTIALLY FRAUDULENT" then "2024-09-20" else "2024-09-17"]

/-- The hardcoded `groundTruthDates` list of the mock generator. -/
def mockGroundTruthDates : List String :=
  ["2024-09-15", "2024-09-16", "2024-09-17"]

/-- The date-match counting used by the generator:
`xs.filter(d => ys.includes(d)).length` — per entry of `xs`, whether the
date string occurs anywhere in `ys` (at most one tally per entry of `xs`,
duplicates in `xs` counted separately). -/
def countDateMatches (xs ys : List String) : Nat :=
  (xs.filter (fun d => ys.contains d)).length

/-- The `date_comparison` record assembled by the mock generator
(part_000 lines 10-48). -/
def mockDateComparison (classification : String) : DateComparison :=
  let isHighRisk := classification == "POTENTIALLY FRAUDULENT"
  let statementDates := mockStatementDates
  let treatyDates := mockTreatyDates classification
  let groundTruthDates := mockGroundTruthDates
  let statementGtMatches := countDateMatches statementDates groundTruthDates
  let treatyGtMatches := countDateMatches treatyDates groundTruthDates
  let statementTreatyMatches := countDateMatches statementDates treatyDates
  let totalPossibleMatches :=
    max statementDates.length (max treatyDates.length groundTruthDates.length)
  let matchPercentage : ℚ :=
    (((statementGtMatches : ℚ) + (treatyGtMatches : ℚ) + (statementTreatyMatches : ℚ)) /
      ((totalPossibleMatches : ℚ) * 3)) * 100
  { statement_dates := statementDates
    treaty_slip_dates := treatyDates
    ground_truth_dates := groundTruthDates
    «matches» :=
      { statement_gt_matches := statementGtMatches
        treaty_gt_matches := treatyGtMatches
        statement_treaty_matches := statementTreatyMatches }
    discrepancies :=
      if isHighRisk then
        ["Treaty slip date 2024-09-20 not found in ground truth data",
         "Statement processing date differs from treaty slip by 3 days"]
      else []
    match_percentage := matchPercentage }

/-- The `financial_comparison` record assembled by the mock generator
(part_000 lines 50-88); note that both stored `variance_percentage`
fields take `Math.abs` of the signed intermediate. -/
def mockFinancialComparison (classification : String) : FinancialComparison :=
  let isHighRisk := classification == "POTENTIALLY FRAUDULENT"
  let treatySlipAmount : ℚ := if isHighRisk then 2800000 else 1200000
  let statementSurplus : ℚ := 2500000
  let withinLimits : Bool := decide (treatySlipAmount ≤ statementSurplus)
  let variance : ℚ := ((treatySlipAmount - statementSurplus) / statementSurplus) * 100
  let treatyCommission : ℚ := if isHighRisk then 125000 else 120000
  let statementCommission : ℚ := 120000
  let commissionMatch : Bool := decide (|treatyCommission - statementCommission| < 5000)
  let commissionVariance : ℚ := treatyCommission - statementCommission
  let commissionVariancePercentage : ℚ := (commissionVariance / statementCommission) * 100
  { cash_loss_limit :=
      { treaty_slip_amount := treatySlipAmount
        statement_surplus_amount := statementSurplus
        within_limits := withinLimits
        variance_percentage := |variance|
        risk_flag := !withinLimits }
    commissions :=
      { treaty_slip_commission := treatyCommission
        statement_commission := statementCommission
        «match» := commissionMatch
        variance_amount := commissionVariance
        variance_percentage := |commissionVariancePercentage| }
    claim_amounts :=
      { total_claims_statement := if isHighRisk then 4200000 else 3800000
        total_claims_ground_truth := 3800000
        variance := if isHighRisk then 400000 else 0
        variance_percentage := if isHighRisk then 10.5 else 0
        suspicious_patterns :=
          if isHighRisk then
            ["Multiple claims submitted within 48 hours",
             "Claim amounts follow suspicious round number pattern",
             "Similar incident descriptions across multiple claims"]
          else [] } }

/-- The `ground_truth_comparison` record assembled by the mock generator
(part_000 lines 90-117); both arms of the source's
`missing_claims: isHighRisk ? [] : []` are the empty list. -/
def mockGroundTruthComparison (classification : String) : GroundTruthComparison :=
  let isHighRisk := classification == "POTENTIALLY FRAUDULENT"
  let isMediumRisk := classification == "INSUFFICIENT EVIDENCE"
  let statementClaims : Nat := if isHighRisk then 15 else 12
  let groundTruthClaims : Nat := 12
  let claimsMatch : Bool := statementClaims == groundTruthClaims
  let claimsVariance : ℤ := (statementClaims : ℤ) - (groundTruthClaims : ℤ)
  let claimsVariancePercentage : ℚ := ((claimsVariance : ℚ) / (groundTruthClaims : ℚ)) * 100
  { total_claims_comparison :=
      { statement_claims := statementClaims
        ground_truth_claims := groundTruthClaims
        «match» := claimsMatch
        variance := claimsVariance
        variance_percentage := claimsVariancePercentage
        missing_claims := []
        extra_claims :=
          if isHighRisk then
            ["Claim #2024-0918-001 - Not found in ground truth",
             "Claim #2024-0918-002 - Duplicate entry detected",
             "Claim #2024-0919-001 - Suspicious timing pattern"]
          else [] }
    data_integrity :=
      { completeness_score := if isHighRisk then 75 else 95
        accuracy_score := if isHighRisk then 68 else 92
        consistency_score := if isHighRisk then 72 else 88
        reliability_rating :=
          if isHighRisk then "LOW" else if isMediumRisk then "MEDIUM" else "HIGH" } }

/-- The `validation_metrics` record assembled by the mock generator
(part_000 lines 119-134): `trust_score` is a hardcoded per-classification
constant, and the four verification booleans are derived from the other
comparison records of the same run. -/
def mockValidationMetrics (classification : String) : ValidationMetrics :=
  let isHighRisk := classification == "POTENTIALLY FRAUDULENT"
  let isMediumRisk := classification == "INSUFFICIENT EVIDENCE"
  let matchPercentage : ℚ := (mockDateComparison classification).match_percentage
  let financial_comparison := mockFinancialComparison classification
  let ground_truth_comparison := mockGroundTruthComparison classification
  { trust_score := if isHighRisk then 45 else if isMediumRisk then 72 else 89
    reliability_indicators :=
      { data_consistency := if isHighRisk then 60 else if isMediumRisk then 75 else 90
        cross_reference_accuracy := if isHighRisk then 55 else if isMediumRisk then 78 else 88
        financial_alignment := if isHighRisk then 40 else if isMediumRisk then 70 else 92
        temporal_consistency := matchPercentage }
    verification_status :=
      { dates_verified := decide (matchPercentage > 80)
        amounts_verified := !financial_comparison.cash_loss_limit.risk_flag
        commissions_verified := financial_comparison.commissions.«match»
        claims_count_verified := ground_truth_comparison.total_claims_comparison.«match» } }

/-- `generateMockComparisonData` (part_000 lines 4-179): the full
`ComplianceAnalysis` record for one report, driven entirely by the
classification label; the `reportId` argument is never read. -/
def generateMockComparisonData (reportId classification : String) : ComplianceAnalysis :=
  let isHighRisk := classification == "POTENTIALLY FRAUDULENT"
  let isMediumRisk := classification == "INSUFFICIENT EVIDENCE"
  let dc := mockDateComparison classification
  let statementGtMatches := dc.«matches».statement_gt_matches
  let treatyGtMatches := dc.«matches».treaty_gt_matches
  { overall_compliance_score := if isHighRisk then 35 else if isMediumRisk then 65 else 85
    overall_risk_level := if isHighRisk then "HIGH" else if isMediumRisk then "MEDIUM" else "LOW"
    pairing_confidence := if isHighRisk then 0.6 else if isMediumRisk then 0.75 else 0.9
    statement_compliance :=
      { compliance_score := if isHighRisk then 40 else if isMediumRisk then 70 else 88
        risk_level := if isHighRisk then "HIGH" else if isMediumRisk then "MEDIUM" else "LOW"
        risk_indicators :=
          if isHighRisk then
            ["Cash loss limit exceeded",
             "Commission discrepancies detected",
             "Date inconsistencies found"]
          else []
        ground_truth_analysis :=
          { matches_found := statementGtMatches
            avg_similarity := if isHighRisk then 0.65 else 0.85
            max_similarity := if isHighRisk then 0.78 else 0.92 } }
    treaty_slip_compliance := some
      { compliance_score := if isHighRisk then 38 else if isMediumRisk then 68 else 86
        risk_level := if isHighRisk then "HIGH" else if isMediumRisk then "MEDIUM" else "LOW"
        risk_indicators :=
          if isHighRisk then
            ["Amount exceeds surplus limits",
             "Date discrepancies with ground truth"]
          else []
        ground_truth_analysis :=
          { matches_found := treatyGtMatches
            avg_similarity := if isHighRisk then 0.62 else 0.83
            max_similarity := if isHighRisk then 0.75 else 0.90 } }
    ground_truth_analysis :=
      { matches_count := min statementGtMatches treatyGtMatches
        avg_similarity := if isHighRisk then 0.63 else 0.84
        max_similarity := if isHighRisk then 0.76 else 0.91 }
    date_comparison := some dc
    financial_comparison := some (mockFinancialComparison classification)
    ground_truth_comparison := some (mockGroundTruthComparison classification)
    validation_metrics := some (mockValidationMetrics classification) }

/-- Modelled from the spec: the parameterized DateComparator
(`generate_date_comparison_analysis` of the documented Python backend) is
not among the available source files; the mock generator only inlines its
computation over three hardcoded non-empty date lists.  Per the spec,
`total_possible_matches = max(len(statement), len(treaty), len(ground_truth))`
and `match_percentage` is clamped to 0 when the denominator
`total_possible_matches * 3` is 0; discrepancy strings are produced
upstream and passed through verbatim. -/
def dateComparatorSpec (statementDates treatyDates groundTruthDates discrepancies : List String) :
    DateComparison :=
  let statementGtMatches := countDateMatches statementDates groundTruthDates
  let treatyGtMatches := countDateMatches treatyDates groundTruthDates
  let statementTreatyMatches := countDateMatches statementDates treatyDates
  let totalPossibleMatches :=
    max statementDates.length (max treatyDates.length groundTruthDates.length)
  let matchPercentage : ℚ :=
    if totalPossibleMatches = 0 then 0
    else
      (((statementGtMatches : ℚ) + (treatyGtMatches : ℚ) + (statementTreatyMatches : ℚ)) /
        ((totalPossibleMatches : ℚ) * 3)) * 100
  { statement_dates := statementDates
    treaty_slip_dates := treatyDates
    ground_truth_dates := groundTruthDates
    «matches» :=
      { statement_gt_matches := statementGtMatches
        treaty_gt_matches := treatyGtMatches
        statement_treaty_matches := statementTreatyMatches }
    discrepancies := discrepancies
    match_percentage := matchPercentage }

/-- The four enhanced-comparison fields carried by a real-comparison
payload (`realComparisonData.data`) or read off a generated mock record
in `enhanceReportWithComparison`. -/
structure ComparisonBundle where
  date_comparison : DateComparison
  financial_comparison : FinancialComparison
  ground_truth_comparison : GroundTruthComparison
  validation_metrics : ValidationMetrics
deriving DecidableEq

/-- The `realComparisonData` argument of `enhanceReportWithComparison`:
a status string plus the comparison payload. -/
structure RealComparisonData where
  status : String
  data : ComparisonBundle
deriving DecidableEq

/-- A JavaScript object stored in `report.compliance_analysis`: either a
full `ComplianceAnalysis` record, or — the result of spreading an absent
`report.compliance_analysis` together with the four comparison fields —
an object holding only those four fields. -/
inductive CAObject where
  | full (ca : ComplianceAnalysis) : CAObject
  | comparisonOnly (b : ComparisonBundle) : CAObject
deriving DecidableEq

/-- The spread `{...report.compliance_analysis, date_comparison: …,
financial_comparison: …, ground_truth_comparison: …, validation_metrics: …}`
used in both branches of `enhanceReportWithComparison`: keeps whatever
other fields the existing object has and overwrites the four comparison
fields. -/
def mergeComparison (existing : Option CAObject) (b : ComparisonBundle) : CAObject :=
  match existing with
  | some (CAObject.full ca) =>
      CAObject.full
        { ca with
          date_comparison := some b.date_comparison
          financial_comparison := some b.financial_comparison
          ground_truth_comparison := some b.ground_truth_comparison
          validation_metrics := some b.validation_metrics }
  | some (CAObject.comparisonOnly _) => CAObject.comparisonOnly b
  | none => CAObject.comparisonOnly b

/-- The report object handled by `enhanceReportWithComparison`.  The
function only ever touches `id`, `classification` and
`compliance_analysis`; every other field of the untyped (`any`) report is
gathered in `other`. -/
structure Report (α : Type) where
  id : String
  classification : String
  compliance_analysis : Option CAObject
  other : α

/-- The four comparison fields of `generateMockComparisonData reportId
classification` (each present there, wrapped in `some`), as read by the
fallback branch of `enhanceReportWithComparison`. -/
def mockComparisonBundle (classification : String) : ComparisonBundle :=
  { date_comparison := mockDateComparison classification
    financial_comparison := mockFinancialComparison classification
    ground_truth_comparison := mockGroundTruthComparison classification
    validation_metrics := mockValidationMetrics classification }

/-- The `else` branch of `enhanceReportWithComparison` (part_000 lines
194-209): fall back to mock data, either installing a full mock
`ComplianceAnalysis` when none exists or merging the mock comparison
fields into the existing one. -/
def enhanceFallback {α : Type} (report : Report α) : Report α :=
  match report.compliance_analysis with
  | none =>
      { report with
        compliance_analysis :=
          some (CAObject.full (generateMockComparisonData report.id report.classification)) }
  | some ca =>
      { report with
        compliance_analysis :=
          some (mergeComparison (some ca) (mockComparisonBundle report.classification)) }

/-- `enhanceReportWithComparison` (part_000 lines 182-211): when a real
comparison payload with status `success` is supplied, merge its four
comparison fields into `report.compliance_analysis`; otherwise fall back
to mock data.  The JS function mutates and returns the same report; the
embedding returns the updated record. -/
def enhanceReportWithComparison {α : Type} (report : Report α)
    (realComparisonData : Option RealComparisonData) : Report α :=
  match realComparisonData with
  | some rd =>
      if rd.status == "success" then
        { report with
          compliance_analysis := some (mergeComparison report.compliance_analysis rd.data) }
      else enhanceFallback report
  | none => enhanceFallback report


/-- C1: the claim says the generated trust_score equals
min(100, (base_trust_score + compliance_adjustment) / 1.6).  It is false
on the code: for classification VALID all four verification booleans are
true and the per-document compliance scores in the same record are 88 and
86, so the claimed formula yields min(100, (100 + 52.2)/1.6) = 95.125 =
761/8, but the generated trust_score is the hardcoded 89. -/
theorem C1_trust_score_formula_counterexample :
    (generateMockComparisonData "RPT-001" "VALID").validation_metrics =
      some (mockValidationMetrics "VALID") ∧
    (mockValidationMetrics "VALID").verification_status = ⟨true, true, true, true⟩ ∧
    (generateMockComparisonData "RPT-001" "VALID").statement_compliance.compliance_score = 88 ∧
    Option.map DocumentCompliance.compliance_score
      (generateMockComparisonData "RPT-001" "VALID").treaty_slip_compliance = some 86 ∧
    min 100 ((((4 : ℚ) / 4) * 100 + (0.3 * 88 + 0.3 * 86)) / 1.6) = 761 / 8 ∧
    (mockValidationMetrics "VALID").trust_score ≠ 761 / 8 := by
  refine ⟨rfl, ?_, rfl, rfl, by norm_num, ?_⟩
  · simp +decide [mockValidationMetrics, mockDateComparison, mockFinancialComparison,
      mockGroundTruthComparison, countDateMatches, mockStatementDates, mockTreatyDates,
      mockGroundTruthDates] <;> norm_num
  · simp +decide [mockValidationMetrics] <;> norm_num

/-- C1 (amended): the generated trust_score is a hardcoded
per-classification constant — 45 for POTENTIALLY FRAUDULENT, 72 for
INSUFFICIENT EVIDENCE, 89 otherwise — not the documented formula; it
does lie in the closed interval [0, 100]. -/
theorem C1_trust_score_hardcoded_by_classification (reportId classification : String) :
    (generateMockComparisonData reportId classification).validation_metrics =
      some (mockValidationMetrics classification) ∧
    (mockValidationMetrics classification).trust_score =
      (if classification == "POTENTIALLY FRAUDULENT" then 45
       else if classification == "INSUFFICIENT EVIDENCE" then 72 else (89 : ℚ)) ∧
    0 ≤ (mockValidationMetrics classification).trust_score ∧
    (mockValidationMetrics classification).trust_score ≤ 100 := by
  refine ⟨rfl, rfl, ?_, ?_⟩ <;>
    cases hH : classification == "POTENTIALLY FRAUDULENT" <;>
      cases hM : classification == "INSUFFICIENT EVIDENCE" <;>
        simp [mockValidationMetrics, hH, hM] <;> norm_num

/-- C2: the claim says reliability_rating is derived from the mean of the
three integrity scores (HIGH iff mean ≥ 90, MEDIUM iff 70 ≤ mean < 90).
It is false on the code: for classification POTENTIALLY FRAUDULENT the
scores are 75, 68, 72 with mean 215/3 ≈ 71.67 ∈ [70, 90), so the rule
requires MEDIUM, but the generated rating is the hardcoded LOW. -/
theorem C2_reliability_rating_counterexample :
    (generateMockComparisonData "RPT-002" "POTENTIALLY FRAUDULENT").ground_truth_comparison =
      some (mockGroundTruthComparison "POTENTIALLY FRAUDULENT") ∧
    ((mockGroundTruthComparison "POTENTIALLY FRAUDULENT").data_integrity.completeness_score +
     (mockGroundTruthComparison "POTENTIALLY FRAUDULENT").data_integrity.accuracy_score +
     (mockGroundTruthComparison "POTENTIALLY FRAUDULENT").data_integrity.consistency_score) / 3 =
      215 / 3 ∧
    (70 : ℚ) ≤ 215 / 3 ∧ (215 : ℚ) / 3 < 90 ∧
    (mockGroundTruthComparison "POTENTIALLY FRAUDULENT").data_integrity.reliability_rating =
      "LOW" ∧
    "LOW" ≠ "MEDIUM" := by
  refine ⟨rfl, ?_, by norm_num, by norm_num, rfl, by decide⟩
  simp +decide [mockGroundTruthComparison] <;> norm_num

/-- C2 (amended): the generated reliability_rating is a hardcoded
per-classification constant — LOW for POTENTIALLY FRAUDULENT, MEDIUM for
INSUFFICIENT EVIDENCE, HIGH otherwise — not derived from the mean of the
three integrity scores. -/
theorem C2_reliability_rating_by_classification (reportId classification : String) :
    (generateMockComparisonData reportId classification).ground_truth_comparison =
      some (mockGroundTruthComparison classification) ∧
    (mockGroundTruthComparison classification).data_integrity.reliability_rating =
      (if classification == "POTENTIALLY FRAUDULENT" then "LOW"
       else if classification == "INSUFFICIENT EVIDENCE" then "MEDIUM" else "HIGH") :=
  ⟨rfl, rfl⟩

/-- C3: when all three date sets are empty, the DateComparator's
match_percentage is the special-cased 0 (denominator
total_possible_matches * 3 = 0), not an error or a non-numeric value,
whatever discrepancy strings accompany the input. -/
theorem C3_empty_date_sets_zero_percentage (discrepancies : List String) :
    (dateComparatorSpec [] [] [] discrepancies).match_percentage = 0 ∧
    (dateComparatorSpec [] [] [] discrepancies).«matches» = ⟨0, 0, 0⟩ :=
  ⟨rfl, rfl⟩

/-- C4: the claim says the cash-loss variance_percentage is the signed
value (treaty - surplus) / surplus * 100, negative when treaty < surplus.
It is false on the code: for classification VALID, treaty 1,200,000 is
below surplus 2,500,000, the signed value is -52, but the generated
variance_percentage is Math.abs of it, 52. -/
theorem C4_cash_loss_variance_counterexample :
    (generateMockComparisonData "RPT-004" "VALID").financial_comparison =
      some (mockFinancialComparison "VALID") ∧
    (mockFinancialComparison "VALID").cash_loss_limit.treaty_slip_amount = 1200000 ∧
    (mockFinancialComparison "VALID").cash_loss_limit.statement_surplus_amount = 2500000 ∧
    (((1200000 : ℚ) - 2500000) / 2500000) * 100 = -52 ∧
    (mockFinancialComparison "VALID").cash_loss_limit.variance_percentage = 52 ∧
    (52 : ℚ) ≠ -52 := by
  refine ⟨rfl, rfl, rfl, by norm_num, ?_, by norm_num⟩
  simp +decide [mockFinancialComparison]
  rw [show ((1200000 : ℚ) - 2500000) / 2500000 * 100 = -52 by norm_num, abs_neg,
    abs_of_nonneg (by norm_num : (0 : ℚ) ≤ 52)]

/-- C4 (amended): the generated cash-loss variance_percentage is the
absolute value |(treaty_slip_amount - statement_surplus_amount) /
statement_surplus_amount * 100|, hence never negative. -/
theorem C4_cash_loss_variance_is_absolute (reportId classification : String) :
    (generateMockComparisonData reportId classification).financial_comparison =
      some (mockFinancialComparison classification) ∧
    (mockFinancialComparison classification).cash_loss_limit.variance_percentage =
      |((mockFinancialComparison classification).cash_loss_limit.treaty_slip_amount -
        (mockFinancialComparison classification).cash_loss_limit.statement_surplus_amount) /
        (mockFinancialComparison classification).cash_loss_limit.statement_surplus_amount * 100| ∧
    0 ≤ (mockFinancialComparison classification).cash_loss_limit.variance_percentage :=
  ⟨rfl, rfl, abs_nonneg _⟩

/-- C5: the claim says that with treaty commission 125,000 and statement
commission 120,000 the CommissionCheck yields match = true.  It is false
on the code: the rule is strict, |5000| < 5000 fails, and the generated
match is false. -/
theorem C5_commission_match_counterexample :
    (generateMockComparisonData "RPT-005" "POTENTIALLY FRAUDULENT").financial_comparison =
      some (mockFinancialComparison "POTENTIALLY FRAUDULENT") ∧
    (mockFinancialComparison "POTENTIALLY FRAUDULENT").commissions.treaty_slip_commission =
      125000 ∧
    (mockFinancialComparison "POTENTIALLY FRAUDULENT").commissions.statement_commission =
      120000 ∧
    (mockFinancialComparison "POTENTIALLY FRAUDULENT").commissions.«match» = false := by
  refine ⟨rfl, rfl, rfl, ?_⟩
  simp +decide [mockFinancialComparison]
  rw [show (125000 : ℚ) - 120000 = 5000 by norm_num,
    abs_of_nonneg (by norm_num : (0 : ℚ) ≤ 5000)]

/-- C5 (amended): at the exactly-5000 boundary the strict < rule fails,
so the CommissionCheck for treaty commission 125,000 and statement
commission 120,000 yields match = false, variance_amount = 5000, and
variance_percentage = 25/6, which rounds (to two decimals) to the spec's
displayed 4.17. -/
theorem C5_commission_boundary_values :
    (generateMockComparisonData "RPT-005A" "POTENTIALLY FRAUDULENT").financial_comparison =
      some (mockFinancialComparison "POTENTIALLY FRAUDULENT") ∧
    (mockFinancialComparison "POTENTIALLY FRAUDULENT").commissions.«match» =
      decide (|(125000 : ℚ) - 120000| < 5000) ∧
    (mockFinancialComparison "POTENTIALLY FRAUDULENT").commissions.«match» = false ∧
    (mockFinancialComparison "POTENTIALLY FRAUDULENT").commissions.variance_amount = 5000 ∧
    (mockFinancialComparison "POTENTIALLY FRAUDULENT").commissions.variance_percentage =
      25 / 6 ∧
    (4.17 : ℚ) - 1 / 200 < 25 / 6 ∧ (25 : ℚ) / 6 < 4.17 + 1 / 200 := by
  refine ⟨rfl, rfl, ?_, ?_, ?_, by norm_num, by norm_num⟩
  · simp +decide [mockFinancialComparison]
    rw [show (125000 : ℚ) - 120000 = 5000 by norm_num,
      abs_of_nonneg (by norm_num : (0 : ℚ) ≤ 5000)]
  · simp +decide [mockFinancialComparison] <;> norm_num
  · simp +decide [mockFinancialComparison]
    rw [abs_of_nonneg (by norm_num : (0 : ℚ) ≤ ((125000 : ℚ) - 120000) / 120000 * 100)]
    norm_num

/-- C6: on statement dates [15, 16, 17], treaty dates [15, 16, 20] and
ground-truth dates [15, 16, 17] (September 2024), the generated date
comparison has statement_gt_matches = 3, treaty_gt_matches = 2,
statement_treaty_matches = 2, total_possible_matches = 3, and
match_percentage = (3+2+2)/(3*3)*100 = 700/9, which rounds (to two
decimals) to the spec's displayed 77.78. -/
theorem C6_date_comparison_high_risk_values :
    (generateMockComparisonData "RPT-006" "POTENTIALLY FRAUDULENT").date_comparison =
      some (mockDateComparison "POTENTIALLY FRAUDULENT") ∧
    (mockDateComparison "POTENTIALLY FRAUDULENT").statement_dates =
      ["2024-09-15", "2024-09-16", "2024-09-17"] ∧
    (mockDateComparison "POTENTIALLY FRAUDULENT").treaty_slip_dates =
      ["2024-09-15", "2024-09-16", "2024-09-20"] ∧
    (mockDateComparison "POTENTIALLY FRAUDULENT").ground_truth_dates =
      ["2024-09-15", "2024-09-16", "2024-09-17"] ∧
    (mockDateComparison "POTENTIALLY FRAUDULENT").«matches» = ⟨3, 2, 2⟩ ∧
    max (mockDateComparison "POTENTIALLY FRAUDULENT").statement_dates.length
      (max (mockDateComparison "POTENTIALLY FRAUDULENT").treaty_slip_dates.length
        (mockDateComparison "POTENTIALLY FRAUDULENT").ground_truth_dates.length) = 3 ∧
    (mockDateComparison "POTENTIALLY FRAUDULENT").match_percentage =
      (((3 : ℚ) + 2 + 2) / (3 * 3)) * 100 ∧
    (mockDateComparison "POTENTIALLY FRAUDULENT").match_percentage = 700 / 9 ∧
    (77.78 : ℚ) - 1 / 200 < 700 / 9 ∧ (700 : ℚ) / 9 < 77.78 + 1 / 200 := by
  refine ⟨rfl, rfl, rfl, rfl, rfl, rfl, ?_, ?_, by norm_num, by norm_num⟩ <;>
    simp +decide [mockDateComparison, countDateMatches, mockStatementDates, mockTreatyDates,
      mockGroundTruthDates] <;> norm_num

/-- C7: in every generated CashLossLimitCheck, within_limits holds
exactly when treaty_slip_amount ≤ statement_surplus_amount (inclusive),
and risk_flag is the negation of within_limits. -/
theorem C7_cash_loss_invariants (reportId classification : String) :
    (generateMockComparisonData reportId classification).financial_comparison =
      some (mockFinancialComparison classification) ∧
    ((mockFinancialComparison classification).cash_loss_limit.within_limits = true ↔
      (mockFinancialComparison classification).cash_loss_limit.treaty_slip_amount ≤
        (mockFinancialComparison classification).cash_loss_limit.statement_surplus_amount) ∧
    (mockFinancialComparison classification).cash_loss_limit.risk_flag =
      !(mockFinancialComparison classification).cash_loss_limit.within_limits := by
  refine ⟨rfl, ?_, rfl⟩
  simp [mockFinancialComparison]

/-- C8: in every generated ValidationMetrics, the four verification
booleans are exactly dates_verified = (date match_percentage > 80),
amounts_verified = cash-loss within_limits, commissions_verified =
commission match, and claims_count_verified = claims-count match, each
taken from the corresponding comparison record of the same output. -/
theorem C8_verification_status_derivation (reportId classification : String) :
    (generateMockComparisonData reportId classification).validation_metrics =
      some (mockValidationMetrics classification) ∧
    (generateMockComparisonData reportId classification).date_comparison =
      some (mockDateComparison classification) ∧
    (generateMockComparisonData reportId classification).financial_comparison =
      some (mockFinancialComparison classification) ∧
    (generateMockComparisonData reportId classification).ground_truth_comparison =
      some (mockGroundTruthComparison classification) ∧
    (mockValidationMetrics classification).verification_status.dates_verified =
      decide ((mockDateComparison classification).match_percentage > 80) ∧
    (mockValidationMetrics classification).verification_status.amounts_verified =
      (mockFinancialComparison classification).cash_loss_limit.within_limits ∧
    (mockValidationMetrics classification).verification_status.commissions_verified =
      (mockFinancialComparison classification).commissions.«match» ∧
    (mockValidationMetrics classification).verification_status.claims_count_verified =
      (mockGroundTruthComparison classification).total_claims_comparison.«match» := by
  refine ⟨rfl, rfl, rfl, rfl, rfl, ?_, rfl, rfl⟩
  simp [mockValidationMetrics, mockFinancialComparison]

/-- C9: generateMockComparisonData never reads its reportId argument —
for any classification and any two report identifiers the produced
ComplianceAnalysis records are identical. -/
theorem C9_reportId_noninterference (classification reportId₁ reportId₂ : String) :
    generateMockComparisonData reportId₁ classification =
      generateMockComparisonData reportId₂ classification := rfl

/-- C10: enhanceReportWithComparison changes at most the
compliance_analysis field — for every input report and every (possibly
absent) real-comparison payload, the id, classification and all other
fields of the returned report equal those of the input. -/
theorem C10_enhance_frame {α : Type} (report : Report α)
    (realComparisonData : Option RealComparisonData) :
    (enhanceReportWithComparison report realComparisonData).id = report.id ∧
    (enhanceReportWithComparison report realComparisonData).classification =
      report.classification ∧
    (enhanceReportWithComparison report realComparisonData).other = report.other := by
  obtain ⟨i, c, ca, o⟩ := report
  cases realComparisonData with
  | none => cases ca <;> exact ⟨rfl, rfl, rfl⟩
  | some rd =>
      cases hs : rd.status == "success" <;> cases ca <;>
        simp [enhanceReportWithComparison, enhanceFallback, hs]
